import Mathlib

/-!
Shallow embedding of `src/main.py` — a terminal file browser whose preview
pane renders the selected file as syntax-highlighted code, rendered markdown,
a half-block rasterized image, or a raw MIME-type label, depending on the
sniffed MIME type and the file's extension.

External collaborators (the `magic` MIME sniffer, the `rich` renderers, PIL's
`Image.open`/`resize`, the Textual widget tree) are modelled at their
boundary: an `Env` record supplies the outcome of every external call the
selection handler makes, and the handler is a pure function from
`Env × path × PaneState` to `Except String (PaneState × List Effect)`, where
`Except.error` models a Python exception propagating uncaught out of the
handler and the effect list records the externally visible calls the claims
talk about (buffer sniff, style-class update, scroll reset).
-/

namespace FileBrowser

/-- Python `str.split(sep)` for a single-character separator (the code only
ever splits on `'/'` and `'.'`), on the character list of the string.  Like
Python, splitting the empty string yields `[""]`, a leading separator yields
a leading empty segment, and a trailing separator a trailing empty segment.
Structurally recursive so that it reduces in the kernel (the core
`String.splitOn` uses well-founded recursion and does not). -/
def pysplitChars (sep : Char) : List Char → List (List Char)
  | [] => [[]]
  | c :: cs =>
    let r := pysplitChars sep cs
    if c = sep then [] :: r
    else
      match r with
      | w :: ws => (c :: w) :: ws
      | [] => [[c]]

/-- Python `str.split(sep)` for a single-character separator, on strings. -/
def pysplit (s : String) (sep : Char) : List String :=
  (pysplitChars sep s.data).map String.mk

/-- One scan step of Python `str.replace`: leftmost-first, non-overlapping
replacement of every occurrence of `pat` (non-empty in every use in this
program).  The `Nat` argument is fuel, instantiated with the length of the
subject string; each step consumes at least one character, so the fuel never
runs out.  Fuel keeps the recursion structural and hence kernel-reducible. -/
def pyreplaceAux (pat rep : List Char) : Nat → List Char → List Char
  | _, [] => []
  | 0, s => s
  | n + 1, c :: cs =>
    if pat ≠ [] ∧ pat.isPrefixOf (c :: cs) then
      rep ++ pyreplaceAux pat rep n ((c :: cs).drop pat.length)
    else
      c :: pyreplaceAux pat rep n cs

/-- Python `str.replace(pat, rep)` on strings. -/
def pyreplace (s pat rep : String) : String :=
  String.mk (pyreplaceAux pat.data rep.data s.data.length s.data)

/-- The four render modes of the spec's `RenderModeSelector`. -/
inductive RenderMode where
  | CodeView
  | MarkdownView
  | ImageView
  | RawMimeLabel
deriving DecidableEq, Repr

/-- `mime.split('/')[0]` — the top-level type of a MIME string.  Python's
`str.split` on a non-empty separator always returns a non-empty list, so the
`[0]` access is total; `List.headI` returns `""` on the (unreachable) empty
list. -/
def topLevelType (mime : String) : String :=
  (pysplit mime '/').headI

/-- `os.path.basename` for POSIX paths as used here: the part after the last
`/`. -/
def os_path_basename (p : String) : String :=
  (pysplit p '/').getLastD ""

/-- The render mode chosen by `on_t_plain_ext` (src/main.py lines 117–122):
`match file_ext: case 'md' → markdown view; case _ → code view`. -/
def select_t_plain_ext (file_ext : String) : RenderMode :=
  if file_ext = "md" then .MarkdownView else .CodeView

/-- The render mode chosen by `on_text_plain` (src/main.py lines 102–115):
for `'text/plain'` it splits the basename on `'.'`; with more than one
segment it dispatches on segment `[1]`, otherwise it shows the raw MIME
label; any other mime falls through to the code view. -/
def select_text_plain (mime basename : String) : RenderMode :=
  if mime = "text/plain" then
    match pysplit basename '.' with
    | _ :: e :: _ => select_t_plain_ext e
    | _ => .RawMimeLabel
  else .CodeView

/-- The render mode chosen by `on_text` (src/main.py lines 95–100). -/
def select_text (mime basename : String) : RenderMode :=
  if mime = "text/plain" then select_text_plain mime basename
  else .CodeView

/-- The render-mode selection performed by `on_directory_tree_file_selected`
(src/main.py lines 76–93): dispatch on `mime.split('/')[0]`. -/
def select (mime basename : String) : RenderMode :=
  let tlt := topLevelType mime
  if tlt = "application" then .CodeView
  else if tlt = "text" then select_text mime basename
  else if tlt = "image" then .ImageView
  else .RawMimeLabel

/-- The extension the dispatch uses, as an option: `Some` of the second
dot-separated segment of the basename when the split has more than one
segment, `none` otherwise. -/
def extOf (basename : String) : Option String :=
  match pysplit basename '.' with
  | _ :: e :: _ => some e
  | _ => none

/-- Modelled from the spec: the decision table of §4.2 `RenderModeSelector`,
written from the spec's words (to be compared with `select`, which is
translated from the source): application → CodeView; text with full MIME
exactly text/plain → MarkdownView for extension `md`, CodeView for any other
extension, RawMimeLabel with no extension; any other text MIME → CodeView;
image → ImageView; anything else → RawMimeLabel. -/
def spec_select_table (mime : String) (ext : Option String) : RenderMode :=
  let tlt := topLevelType mime
  if tlt = "application" then .CodeView
  else if tlt = "text" then
    if mime = "text/plain" then
      match ext with
      | some e => if e = "md" then .MarkdownView else .CodeView
      | none => .RawMimeLabel
    else .CodeView
  else if tlt = "image" then .ImageView
  else .RawMimeLabel

/-- An RGB pixel as returned by PIL's `getpixel`. -/
structure RGB where
  r : Nat
  g : Nat
  b : Nat
deriving DecidableEq, Repr

/-- `int(img_height / scale)` with `scale = img_width / dest_width`
(src/main.py lines 51–52), modelled with exact arithmetic: Python's `int` on
a non-negative float truncates toward zero, i.e. takes the floor, which is
natural-number division `img_height * dest_width / img_width`. -/
def destHeight (img_width img_height dest_width : Nat) : Nat :=
  img_height * dest_width / img_width

/-- The destination height after the odd-to-even bump of src/main.py
line 53: `dest_height + 1 if dest_height % 2 != 0 else dest_height`. -/
def adjustedHeight (img_width img_height dest_width : Nat) : Nat :=
  let d := destHeight img_width img_height dest_width
  if d % 2 ≠ 0 then d + 1 else d

/-- The row indices visited by `for y in range(0, dest_height, 2)`
(src/main.py line 57): `0, 2, …`, of which there are `⌈dest_height / 2⌉`. -/
def rowIndices (dest_height : Nat) : List Nat :=
  (List.range ((dest_height + 1) / 2)).map (fun k => 2 * k)

/-- One character cell of the unicode branch (src/main.py line 62):
foreground = top pixel, background = bottom pixel, upper-half-block glyph. -/
def cellStr (top bot : RGB) : String :=
  "[rgb(" ++ toString top.r ++ "," ++ toString top.g ++ "," ++ toString top.b
    ++ ") on rgb(" ++ toString bot.r ++ "," ++ toString bot.g ++ ","
    ++ toString bot.b ++ ")]▀[/]"

/-- The grid of character cells produced by the unicode branch of
`img_to_string`: one row per visited `y`, one cell per `x < dest_width`,
reading pixels `(x, y)` and `(x, y + 1)` of the resized bitmap.  `resized`
is the pixel accessor of `img.resize((dest_width, dest_height))`, supplied
by the external image library. -/
def rasterRows (resized : Nat → Nat → RGB) (img_width img_height dest_width : Nat) :
    List (List String) :=
  (rowIndices (adjustedHeight img_width img_height dest_width)).map fun y =>
    (List.range dest_width).map fun x => cellStr (resized x y) (resized x (y + 1))

/-- `img_to_string` (src/main.py lines 48–69), unicode branch: after the
destination size is computed (lines 50–53), `img.resize((dest_width,
dest_height))` on line 54 raises `ValueError("height and width must be > 0")`
whenever a target dimension is < 1 (Pillow's `_imaging.c` resize guard), so
for a computed destination height of 0 the function raises instead of
returning; otherwise the cells of each row are concatenated, a line break
after every row, all rows concatenated (the Python loop builds the same
string by repeated appending). -/
def img_to_string (resized : Nat → Nat → RGB) (img_width img_height dest_width : Nat) :
    Except String String :=
  if dest_width < 1 ∨ adjustedHeight img_width img_height dest_width < 1 then
    .error "ValueError: height and width must be > 0"
  else
    .ok (String.join ((rasterRows resized img_width img_height dest_width).map
      fun row => String.join row ++ "\n"))

/-- A decoded bitmap: its size and the pixel accessor of its resize to the
destination grid (resizing itself is done by the external image library). -/
structure ImageData where
  width : Nat
  height : Nat
  resizedPixel : Nat → Nat → RGB

/-- What the preview `Static` widget currently displays. -/
inductive Content where
  | empty
  | code (path : String)
  | markdown (markup : String)
  | image (s : String)
  | rawLabel (mime : String)
  | errorDiag
deriving DecidableEq, Repr

/-- The app's subtitle (`self.sub_title`). -/
inductive Subtitle where
  | empty
  | path (p : String)
  | mimeTypeMarker
  | errorMarker
deriving DecidableEq, Repr

/-- The mutable preview state: the content of the `#code` widget, the
`code-view` / `image-view` classes of its parent `#code-view` container, the
`image` class of the widget itself, and the subtitle. -/
structure PaneState where
  content : Content
  viewboxCodeView : Bool
  viewboxImageView : Bool
  previewImage : Bool
  subtitle : Subtitle
deriving DecidableEq, Repr

/-- The initial pane state at app start. -/
def initState : PaneState :=
  { content := .empty, viewboxCodeView := false, viewboxImageView := false,
    previewImage := false, subtitle := .empty }

/-- The externally visible calls a transition makes that the claims talk
about: the confirmatory buffer sniff (`magic_from_buffer` over the first
`n` bytes), a scroll reset (`scroll_home(animate=False)`), and a style-class
update (the add/remove-class triple each renderer performs). -/
inductive Effect where
  | bufferSniffCall (n : Nat)
  | scrollHome
  | styleUpdate
deriving DecidableEq, Repr

/-- The outcomes of every external call the selection handler can make, one
selection event's worth: the path-based sniff (`magic_from_file`), the raw
bytes `open(path, "rb").read(2048)`, the buffer-based sniff on those bytes,
the text read `open(path).read()`, the highlighter `Syntax.from_path`, and
the image decode `Image.open`.  `Except.error` models the call raising. -/
structure Env where
  pathSniff : Except String String
  bufferBytes : Except String String
  bufferSniff : String → String
  readText : Except String String
  syntaxLoad : Except String Unit
  imageDecode : Except String ImageData

/-- `on_exception` (src/main.py lines 71–74): replace the content with the
rendered traceback and set the subtitle to the bold ERROR/warning marker.
Style classes and scroll position are not touched. -/
def on_exception (s : PaneState) : PaneState :=
  { s with content := .errorDiag, subtitle := .errorMarker }

/-- `on_code_view` (src/main.py lines 145–164): try `Syntax.from_path`; on
failure `on_exception`, otherwise set the non-image style classes, show the
highlighted file, scroll home and set the subtitle to the path. -/
def on_code_view (env : Env) (path : String) (s : PaneState) :
    PaneState × List Effect :=
  match env.syntaxLoad with
  | .error _ => (on_exception s, [])
  | .ok _ =>
    ({ content := .code path, viewboxCodeView := true, viewboxImageView := false,
       previewImage := false, subtitle := .path path },
     [.styleUpdate, .scrollHome])

/-- `on_markdown_view` (src/main.py lines 124–143): try to read the file and
apply the two literal checkbox substitutions; on failure `on_exception`,
otherwise set the non-image style classes, show the rendered markdown,
scroll home and set the subtitle to the path. -/
def on_markdown_view (env : Env) (path : String) (s : PaneState) :
    PaneState × List Effect :=
  match env.readText with
  | .error _ => (on_exception s, [])
  | .ok text =>
    let markup := pyreplace (pyreplace text "-[ ]" "- ☐") "-[x]" "- ☒"
    ({ content := .markdown markup, viewboxCodeView := true,
       viewboxImageView := false, previewImage := false, subtitle := .path path },
     [.styleUpdate, .scrollHome])

/-- `on_image_view` (src/main.py lines 166–180): try `Image.open` and
`img_to_string(dest_width=80)` — both inside the same try, so a failing
decode and the `ValueError` the resize inside `img_to_string` raises for a
zero destination height both land in `on_exception`; otherwise set the
image style classes, show the rasterized string and set the subtitle to the
path (no scroll reset in this branch). -/
def on_image_view (env : Env) (path : String) (s : PaneState) :
    PaneState × List Effect :=
  match env.imageDecode with
  | .error _ => (on_exception s, [])
  | .ok img =>
    match img_to_string img.resizedPixel img.width img.height 80 with
    | .error _ => (on_exception s, [])
    | .ok image_view =>
      ({ content := .image image_view, viewboxCodeView := false,
         viewboxImageView := true, previewImage := true, subtitle := .path path },
       [.styleUpdate])

/-- `on_t_plain_ext` (src/main.py lines 117–122): dispatch on the extension
string: `'md'` → markdown view, anything else → code view. -/
def on_t_plain_ext (env : Env) (file_ext path : String) (s : PaneState) :
    PaneState × List Effect :=
  if file_ext = "md" then on_markdown_view env path s else on_code_view env path s

/-- `on_text_plain` (src/main.py lines 102–115): for `'text/plain'`, split
the basename on `'.'`; with more than one segment dispatch on segment `[1]`
via `on_t_plain_ext`; otherwise perform the confirmatory buffer sniff of the
first 2048 bytes (its result is discarded; the `open(...).read(2048)` and
the sniff are not inside any try, so a raising read propagates), then show
the path-sniffed MIME string and the generic subtitle.  Any other mime falls
through to the code view. -/
def on_text_plain (env : Env) (mime path : String) (s : PaneState) :
    Except String (PaneState × List Effect) :=
  if mime = "text/plain" then
    match pysplit (os_path_basename path) '.' with
    | _ :: e :: _ => .ok (on_t_plain_ext env e path s)
    | _ =>
      match env.bufferBytes with
      | .error exc => .error exc
      | .ok bytes =>
        let _ := env.bufferSniff bytes
        .ok ({ s with content := .rawLabel mime, subtitle := .mimeTypeMarker },
             [.bufferSniffCall 2048])
  else .ok (on_code_view env path s)

/-- `on_text` (src/main.py lines 95–100). -/
def on_text (env : Env) (mime path : String) (s : PaneState) :
    Except String (PaneState × List Effect) :=
  if mime = "text/plain" then on_text_plain env mime path s
  else .ok (on_code_view env path s)

/-- `on_directory_tree_file_selected` (src/main.py lines 76–93): sniff the
path (`magic_from_file` is not inside any try, so a raising sniff propagates
out of the handler, modelled by `Except.error`), then dispatch on the
top-level type; the wildcard branch shows the MIME string and sets the
generic subtitle without touching style classes or scroll position. -/
def on_directory_tree_file_selected (env : Env) (path : String) (s : PaneState) :
    Except String (PaneState × List Effect) :=
  match env.pathSniff with
  | .error exc => .error exc
  | .ok mime =>
    let tlt := topLevelType mime
    if tlt = "application" then .ok (on_code_view env path s)
    else if tlt = "text" then on_text env mime path s
    else if tlt = "image" then .ok (on_image_view env path s)
    else .ok ({ s with content := .rawLabel mime, subtitle := .mimeTypeMarker }, [])

/-- Modelled from the spec: the adjusted destination height as claim C4
states it — `ceil(originalHeight / (originalWidth / destWidth))`, i.e.
`⌈img_height * dest_width / img_width⌉`, bumped up by one when odd (to be
compared with `adjustedHeight`, which is translated from the source and
truncates instead of rounding up). -/
def spec_ceil_adjustedHeight (img_width img_height dest_width : Nat) : Nat :=
  let d := (img_height * dest_width + img_width - 1) / img_width
  if d % 2 ≠ 0 then d + 1 else d

/-- An environment in which the path-based MIME sniff raises (the selected
file no longer exists on disk); every other collaborator is irrelevant. -/
def envSniffRaises : Env :=
  { pathSniff := .error "FileNotFoundError", bufferBytes := .error "unused",
    bufferSniff := fun _ => "unused", readText := .error "unused",
    syntaxLoad := .error "unused", imageDecode := .error "unused" }

/-- An environment in which the path-based sniff yields `image/png` but the
image decode raises (a malformed image). -/
def envImageBad : Env :=
  { pathSniff := .ok "image/png", bufferBytes := .error "unused",
    bufferSniff := fun _ => "unused", readText := .error "unused",
    syntaxLoad := .error "unused", imageDecode := .error "DecodeError" }

/-- An environment selecting a decodable 80×2 image (the smallest source
size whose resize to width 80 succeeds with a single emitted row); the
resize collaborator returns black pixels. -/
def envImageTiny : Env :=
  { pathSniff := .ok "image/png", bufferBytes := .error "unused",
    bufferSniff := fun _ => "unused", readText := .error "unused",
    syntaxLoad := .error "unused",
    imageDecode := .ok { width := 80, height := 2, resizedPixel := fun _ _ => ⟨0, 0, 0⟩ } }

/-- An environment selecting a file sniffed as `video/mp4`, which dispatches
to the wildcard raw-MIME-label branch. -/
def envVideoMp4 : Env :=
  { pathSniff := .ok "video/mp4", bufferBytes := .error "unused",
    bufferSniff := fun _ => "unused", readText := .error "unused",
    syntaxLoad := .error "unused", imageDecode := .error "unused" }

/-- The rasterized string of the 80×2 black bitmap of `envImageTiny` at
destination width 80: the destination height is `⌊2·80/80⌋ = 2` (already
even), so one row of 80 black half-block cells is emitted. -/
def imageViewString : String :=
  String.join ((rasterRows (fun _ _ => ⟨0, 0, 0⟩) 80 2 80).map
    fun row => String.join row ++ "\n")

/-- The pane state after selecting the 80×2 image of `envImageTiny` from
the initial state: the rasterized single-row string is shown and the image
style classes are set. -/
def stateAfterImage : PaneState :=
  { content := .image imageViewString, viewboxCodeView := false,
    viewboxImageView := true, previewImage := true, subtitle := .path "photo.png" }

/-- The pane state after then selecting the `video/mp4` file of
`envVideoMp4`: the content is replaced by the raw MIME label and the
subtitle by the generic marker, but the style classes are left as the image
transition set them. -/
def stateAfterRaw : PaneState :=
  { content := .rawLabel "video/mp4", viewboxCodeView := false,
    viewboxImageView := true, previewImage := true, subtitle := .mimeTypeMarker }

/-- An environment for a `text/plain` file whose renderers all succeed. -/
def envPlainOk : Env :=
  { pathSniff := .ok "text/plain", bufferBytes := .ok "#!/bin/sh",
    bufferSniff := fun _ => "text/x-shellscript", readText := .ok "x -[ ] y",
    syntaxLoad := .ok (), imageDecode := .error "unused" }

/-- `envPlainOk` with a different buffer-sniff result (for the
noninterference claim about the discarded confirmatory sniff). -/
def envPlainOkAltSniff : Env :=
  { pathSniff := .ok "text/plain", bufferBytes := .ok "#!/bin/sh",
    bufferSniff := fun _ => "application/x-sh", readText := .ok "x -[ ] y",
    syntaxLoad := .ok (), imageDecode := .error "unused" }

/-- The pane state after selecting `notes.md` under `envPlainOk` from the
initial state: the markdown route reads `"x -[ ] y"` and the checkbox
substitution turns it into `"x - ☐ y"`. -/
def stateAfterMarkdown : PaneState :=
  { content := .markdown "x - ☐ y", viewboxCodeView := true,
    viewboxImageView := false, previewImage := false, subtitle := .path "notes.md" }

/-- C1: for every (MIME, extension) input, the render-mode selection of
`on_directory_tree_file_selected` and its helpers follows the spec's
decision table: `application/*` → CodeView; top-level `text` with full MIME
exactly `text/plain` → MarkdownView for extension `md`, CodeView for any
other extension, RawMimeLabel with no extension; any other top-level `text`
MIME → CodeView; `image/*` → ImageView; anything else → RawMimeLabel. -/
theorem select_follows_spec_decision_table (mime basename : String) :
    select mime basename = spec_select_table mime (extOf basename) := by
  unfold select spec_select_table select_text select_text_plain select_t_plain_ext extOf
  by_cases h1 : topLevelType mime = "application"
  · simp [h1]
  by_cases h2 : topLevelType mime = "text"
  · simp [h1, h2]
    by_cases h3 : mime = "text/plain"
    · simp [h3]
      cases hs : pysplit basename '.' with
      | nil => simp
      | cons a t =>
        cases t with
        | nil => simp
        | cons e r => by_cases h4 : e = "md" <;> simp [h4]
    · simp [h3]
  by_cases h5 : topLevelType mime = "image" <;> simp [h1, h2, h5]

/-- C7: the extension used for render-mode dispatch is the first
dot-delimited segment after the basename's first dot (`split('.')[1]`), so
with sniffed MIME `text/plain` the multi-dot name `archive.tar.gz` yields
extension `tar` and selects CodeView, while `notes.md.txt` yields `md` and
selects MarkdownView. -/
theorem dispatch_extension_is_first_dot_segment :
    (∀ (basename a e : String) (rest : List String),
        pysplit basename '.' = a :: e :: rest →
        select "text/plain" basename =
          (if e = "md" then RenderMode.MarkdownView else RenderMode.CodeView)) ∧
    select "text/plain" "archive.tar.gz" = .CodeView ∧
    select "text/plain" "notes.md.txt" = .MarkdownView := by
  refine ⟨?_, by decide, by decide⟩
  intro basename a e rest hs
  unfold select
  rw [if_neg (by decide), if_pos (by decide)]
  unfold select_text
  rw [if_pos rfl]
  unfold select_text_plain
  rw [if_pos rfl]
  simp only [hs]
  unfold select_t_plain_ext
  rfl

/-- C7 witness: `archive.tar.gz` splits into `["archive", "tar", "gz"]`, and
the selection at MIME `text/plain` is CodeView (the `tar` segment, not
`gz`, is dispatched on). -/
theorem dispatch_extension_is_first_dot_segment_witness :
    pysplit "archive.tar.gz" '.' = ["archive", "tar", "gz"] ∧
    select "text/plain" "archive.tar.gz" =
      (if "tar" = "md" then RenderMode.MarkdownView else RenderMode.CodeView) :=
  ⟨by decide,
   dispatch_extension_is_first_dot_segment.1 "archive.tar.gz" "archive" "tar" ["gz"]
     (by decide)⟩

/-- C9: every pixel access of the rasterizer's unicode branch is in bounds:
for each visited row index `y` (the elements of `range(0, dest_height, 2)`
after the odd-to-even bump) and each column `x < dest_width`, both `(x, y)`
and `(x, y + 1)` are valid coordinates of the `dest_width × dest_height`
resized bitmap, because the bump makes the height even. -/
theorem raster_pixel_access_in_bounds (w h dw x y : Nat) (hw : 0 < w)
    (hy : y ∈ rowIndices (adjustedHeight w h dw)) (hx : x < dw) :
    x < dw ∧ y < adjustedHeight w h dw ∧ y + 1 < adjustedHeight w h dw := by
  have heven : adjustedHeight w h dw % 2 = 0 := by
    simp only [adjustedHeight]
    split_ifs <;> omega
  simp only [rowIndices, List.mem_map, List.mem_range] at hy
  obtain ⟨k, hk, rfl⟩ := hy
  refine ⟨hx, by omega, by omega⟩

/-- C9 witness: for an 80×2 source bitmap at destination width 80 the first
visited row is 0, and rows 0 and 1 are both inside the adjusted height. -/
theorem raster_pixel_access_in_bounds_witness :
    0 < 80 ∧ 0 ∈ rowIndices (adjustedHeight 80 2 80) ∧
    (0 < 80 ∧ 0 < adjustedHeight 80 2 80 ∧ 0 + 1 < adjustedHeight 80 2 80) :=
  ⟨by decide, by decide,
   raster_pixel_access_in_bounds 80 2 80 0 0 (by decide) (by decide) (by decide)⟩

/-- C4 counterexample: the claim computes the adjusted height with a
ceiling, but the code truncates (`int(img_height / scale)`).  For a 160×5
bitmap at destination width 80 the code computes `int(5 / 2.0) = 2`
(already even) and emits 1 row, while the claim's
`ceil(5 / 2) = 3 → bump → 4` predicts 2 rows. -/
theorem rasterize_row_count_ceil_counterexample :
    (rasterRows (fun _ _ => ⟨0, 0, 0⟩) 160 5 80).length ≠
      spec_ceil_adjustedHeight 160 5 80 / 2 := by decide

/-- C4 as amended: for a bitmap with positive width and height and
destination width 80, every row of the rasterized grid has exactly 80
character cells, and the number of rows is `adjustedHeight / 2`, where
`adjustedHeight` is the truncated (floor, not ceiling) destination height
`⌊originalHeight / (originalWidth / 80)⌋`, bumped up by one when odd. -/
theorem rasterize_dimensions (resized : Nat → Nat → RGB) (w h : Nat)
    (hw : 0 < w) (hh : 0 < h) :
    (rasterRows resized w h 80).length = adjustedHeight w h 80 / 2 ∧
    ∀ row ∈ rasterRows resized w h 80, row.length = 80 := by
  have heven : adjustedHeight w h 80 % 2 = 0 := by
    simp only [adjustedHeight]
    split_ifs <;> omega
  constructor
  · simp only [rasterRows, rowIndices, List.length_map, List.length_range]
    omega
  · intro row hrow
    simp only [rasterRows, List.mem_map] at hrow
    obtain ⟨y, -, rfl⟩ := hrow
    simp

/-- C4 witness: at the 160×5 bitmap the amended row count holds (1 row,
since the truncated height 2 is even). -/
theorem rasterize_dimensions_witness :
    (rasterRows (fun _ _ => ⟨0, 0, 0⟩) 160 5 80).length = adjustedHeight 160 5 80 / 2 :=
  (rasterize_dimensions (fun _ _ => ⟨0, 0, 0⟩) 160 5 (by decide) (by decide)).1

/-- Exhaustive characterization of every `.ok` result of the selection
handler: it is the error diagnostic (some renderer raised and was caught),
a successful code, markdown or image view with this event's path as
subtitle and the corresponding style classes and effects, or the raw MIME
label, which only replaces content and subtitle (style classes untouched)
and whose effect list is empty or the single confirmatory buffer sniff. -/
theorem handler_ok_cases (env : Env) (path : String) (s st : PaneState)
    (effs : List Effect)
    (hrun : on_directory_tree_file_selected env path s = .ok (st, effs)) :
    (st = on_exception s ∧ effs = []) ∨
    (st = { content := .code path, viewboxCodeView := true, viewboxImageView := false,
            previewImage := false, subtitle := .path path } ∧
     effs = [.styleUpdate, .scrollHome]) ∨
    (∃ t, st = { content := .markdown t, viewboxCodeView := true,
                 viewboxImageView := false, previewImage := false,
                 subtitle := .path path } ∧
          effs = [.styleUpdate, .scrollHome]) ∨
    (∃ i, st = { content := .image i, viewboxCodeView := false,
                 viewboxImageView := true, previewImage := true,
                 subtitle := .path path } ∧
          effs = [.styleUpdate]) ∨
    (∃ m, st = { s with content := .rawLabel m, subtitle := .mimeTypeMarker } ∧
          (effs = [] ∨ effs = [.bufferSniffCall 2048])) := by
  unfold on_directory_tree_file_selected on_text on_text_plain on_t_plain_ext
    on_markdown_view on_code_view on_image_view at hrun
  repeat'
    first
      | split at hrun
      | dsimp only [] at hrun
  all_goals
    first
      | exact Except.noConfusion hrun
      | (injection hrun with h
         injection h with h1 h2
         subst h1
         subst h2
         first
           | exact Or.inl ⟨rfl, rfl⟩
           | exact Or.inr (Or.inl ⟨rfl, rfl⟩)
           | exact Or.inr (Or.inr (Or.inl ⟨_, rfl, rfl⟩))
           | exact Or.inr (Or.inr (Or.inr (Or.inl ⟨_, rfl, rfl⟩)))
           | exact Or.inr (Or.inr (Or.inr (Or.inr ⟨_, rfl, Or.inl rfl⟩)))
           | exact Or.inr (Or.inr (Or.inr (Or.inr ⟨_, rfl, Or.inr rfl⟩))))

/-- C2 counterexample: when `magic_from_file` raises (the selected file no
longer exists), the exception propagates uncaught out of the selection
handler — the pane does not transition to the Error state, because the
classify call is not inside any try/except. -/
theorem classify_failure_propagates_counterexample :
    on_directory_tree_file_selected envSniffRaises "gone.txt" initState =
      Except.error "FileNotFoundError" := rfl

/-- C2 as amended: a failing path sniff propagates uncaught out of the
handler (in the host framework this crashes the session, not an Error-state
transition); only failures inside the dispatched renderers — here the image
decode — are caught at the pane boundary and produce the Error state with a
diagnostic as content and the warning-marker subtitle. -/
theorem classify_failure_amended (env : Env) (path : String) (s : PaneState)
    (exc : String) :
    (env.pathSniff = .error exc →
      on_directory_tree_file_selected env path s = .error exc) ∧
    (env.pathSniff = .ok "image/png" → env.imageDecode = .error exc →
      on_directory_tree_file_selected env path s =
        .ok ({ s with content := .errorDiag, subtitle := .errorMarker }, [])) := by
  constructor
  · intro h
    unfold on_directory_tree_file_selected
    rw [h]
  · intro h1 h2
    unfold on_directory_tree_file_selected
    rw [h1]
    dsimp only []
    rw [if_neg (by decide), if_neg (by decide), if_pos (by decide)]
    unfold on_image_view
    rw [h2]
    rfl

/-- C2 witness: a malformed image is caught at the pane boundary and yields
the Error state with the warning-marker subtitle. -/
theorem classify_failure_amended_witness :
    on_directory_tree_file_selected envImageBad "broken.png" initState =
      .ok ({ initState with content := .errorDiag, subtitle := .errorMarker }, []) :=
  (classify_failure_amended envImageBad "broken.png" initState "DecodeError").2 rfl rfl

/-- C3 counterexample: a RawMimeLabel transition taken after an ImageView
transition performs no style-class update at all, so the image style class
survives while the content is a raw MIME label — the claimed invariant
fails in this reachable state. -/
theorem raw_after_image_keeps_image_style_counterexample :
    on_directory_tree_file_selected envImageTiny "photo.png" initState =
      .ok (stateAfterImage, [.styleUpdate]) ∧
    on_directory_tree_file_selected envVideoMp4 "v.mp4" stateAfterImage =
      .ok (stateAfterRaw, []) ∧
    stateAfterRaw.content = .rawLabel "video/mp4" ∧
    stateAfterRaw.previewImage = true ∧
    stateAfterRaw.viewboxImageView = true :=
  ⟨rfl, rfl, rfl, rfl, rfl⟩

/-- C3 as amended: successful CodeView and MarkdownView transitions set the
non-image style classes, a successful ImageView transition sets the image
style classes, but a RawMimeLabel transition leaves the style classes
exactly as they were — so the style/content consistency invariant holds
after code, markdown and image transitions but not after a raw-label
transition that follows an image transition. -/
theorem style_class_per_transition (env : Env) (path : String) (s st : PaneState)
    (effs : List Effect)
    (hrun : on_directory_tree_file_selected env path s = .ok (st, effs)) :
    (∀ p, st.content = .code p →
      st.viewboxCodeView = true ∧ st.viewboxImageView = false ∧ st.previewImage = false) ∧
    (∀ t, st.content = .markdown t →
      st.viewboxCodeView = true ∧ st.viewboxImageView = false ∧ st.previewImage = false) ∧
    (∀ i, st.content = .image i →
      st.viewboxCodeView = false ∧ st.viewboxImageView = true ∧ st.previewImage = true) ∧
    (∀ m, st.content = .rawLabel m →
      st.viewboxCodeView = s.viewboxCodeView ∧ st.viewboxImageView = s.viewboxImageView ∧
      st.previewImage = s.previewImage) := by
  rcases handler_ok_cases env path s st effs hrun with
    ⟨hst, -⟩ | ⟨hst, -⟩ | ⟨t, hst, -⟩ | ⟨i, hst, -⟩ | ⟨m, hst, -⟩ <;>
    subst hst <;> simp [on_exception]

/-- C3 witness: the raw-label transition of the counterexample run leaves
the style classes of the preceding image state unchanged. -/
theorem style_class_per_transition_witness :
    stateAfterRaw.viewboxCodeView = stateAfterImage.viewboxCodeView ∧
    stateAfterRaw.viewboxImageView = stateAfterImage.viewboxImageView ∧
    stateAfterRaw.previewImage = stateAfterImage.previewImage :=
  (style_class_per_transition envVideoMp4 "v.mp4" stateAfterImage stateAfterRaw []
      rfl).2.2.2 "video/mp4" rfl

/-- C5: on the MarkdownView route, the text handed to the markdown renderer
is the file's text with every literal `-[ ]` replaced by `- ☐` and then
every literal `-[x]` replaced by `- ☒`; a failing read instead yields the
Error state with the warning-marker subtitle. -/
theorem markdown_substitutions (env : Env) (path text : String) (s st : PaneState)
    (effs : List Effect) (a : String) (rest : List String)
    (hm : env.pathSniff = .ok "text/plain")
    (hsplit : pysplit (os_path_basename path) '.' = a :: "md" :: rest)
    (hrun : on_directory_tree_file_selected env path s = .ok (st, effs)) :
    (env.readText = .ok text →
      st.content = .markdown (pyreplace (pyreplace text "-[ ]" "- ☐") "-[x]" "- ☒")) ∧
    (∀ exc, env.readText = .error exc →
      st.content = .errorDiag ∧ st.subtitle = .errorMarker) := by
  unfold on_directory_tree_file_selected at hrun
  rw [hm] at hrun
  dsimp only [] at hrun
  rw [if_neg (by decide), if_pos (by decide)] at hrun
  unfold on_text at hrun
  rw [if_pos rfl] at hrun
  unfold on_text_plain at hrun
  rw [if_pos rfl] at hrun
  simp only [hsplit] at hrun
  unfold on_t_plain_ext at hrun
  rw [if_pos rfl] at hrun
  unfold on_markdown_view at hrun
  constructor
  · intro hr
    rw [hr] at hrun
    dsimp only [] at hrun
    injection hrun with h
    injection h with h1 h2
    subst h1
    rfl
  · intro exc hr
    rw [hr] at hrun
    injection hrun with h
    injection h with h1 h2
    subst h1
    exact ⟨rfl, rfl⟩

/-- C5 witness: reading `"x -[ ] y"` through the markdown route hands the
renderer `"x - ☐ y"`. -/
theorem markdown_substitutions_witness :
    stateAfterMarkdown.content =
      .markdown (pyreplace (pyreplace "x -[ ] y" "-[ ]" "- ☐") "-[x]" "- ☒") :=
  (markdown_substitutions envPlainOk "notes.md" "x -[ ] y" initState stateAfterMarkdown
      [.styleUpdate, .scrollHome] "notes" [] rfl (by decide) rfl).1 rfl

/-- C6: for a path sniffed as exactly `text/plain` whose basename has no
dot, the handler performs the confirmatory 2048-byte buffer sniff but its
result is discarded: the resulting state shows the path-sniffed MIME string
with the generic subtitle, and two environments differing (among other
things) in their buffer-sniff function produce identical results. -/
theorem buffer_sniff_inert (envA envB : Env) (path : String) (s : PaneState)
    (b0 bA bB : String)
    (hA : envA.pathSniff = .ok "text/plain") (hB : envB.pathSniff = .ok "text/plain")
    (hsplit : pysplit (os_path_basename path) '.' = [b0])
    (hbA : envA.bufferBytes = .ok bA) (hbB : envB.bufferBytes = .ok bB) :
    on_directory_tree_file_selected envA path s =
      .ok ({ s with content := .rawLabel "text/plain", subtitle := .mimeTypeMarker },
           [.bufferSniffCall 2048]) ∧
    on_directory_tree_file_selected envA path s =
      on_directory_tree_file_selected envB path s := by
  have key : ∀ (env : Env) (be : String), env.pathSniff = .ok "text/plain" →
      env.bufferBytes = .ok be →
      on_directory_tree_file_selected env path s =
        .ok ({ s with content := .rawLabel "text/plain", subtitle := .mimeTypeMarker },
             [.bufferSniffCall 2048]) := by
    intro env be h1 h2
    unfold on_directory_tree_file_selected
    rw [h1]
    dsimp only []
    rw [if_neg (by decide), if_pos (by decide)]
    unfold on_text
    rw [if_pos rfl]
    unfold on_text_plain
    rw [if_pos rfl]
    simp only [hsplit]
    rw [h2]
  exact ⟨key envA bA hA hbA, (key envA bA hA hbA).trans (key envB bB hB hbB).symm⟩

/-- C6 witness: selecting `README` under two environments that differ in the
buffer-sniff result yields the same raw-label state, with the sniff call in
the effect trace. -/
theorem buffer_sniff_inert_witness :
    on_directory_tree_file_selected envPlainOk "README" initState =
      .ok ({ initState with content := .rawLabel "text/plain", subtitle := .mimeTypeMarker },
           [.bufferSniffCall 2048]) ∧
    on_directory_tree_file_selected envPlainOk "README" initState =
      on_directory_tree_file_selected envPlainOkAltSniff "README" initState :=
  buffer_sniff_inert envPlainOk envPlainOkAltSniff "README" initState "README"
    "#!/bin/sh" "#!/bin/sh" rfl rfl (by decide) rfl rfl

/-- C8: on every successful transition the subtitle is the selected path for
CodeView, MarkdownView and ImageView, but the generic `Mime Type` marker for
RawMimeLabel; CodeView and MarkdownView transitions additionally reset the
scroll position. -/
theorem subtitle_and_scroll_per_mode (env : Env) (path : String) (s st : PaneState)
    (effs : List Effect)
    (hrun : on_directory_tree_file_selected env path s = .ok (st, effs)) :
    (∀ p, st.content = .code p →
      st.subtitle = .path path ∧ Effect.scrollHome ∈ effs) ∧
    (∀ t, st.content = .markdown t →
      st.subtitle = .path path ∧ Effect.scrollHome ∈ effs) ∧
    (∀ i, st.content = .image i → st.subtitle = .path path) ∧
    (∀ m, st.content = .rawLabel m → st.subtitle = .mimeTypeMarker) := by
  rcases handler_ok_cases env path s st effs hrun with
    ⟨hst, heff⟩ | ⟨hst, heff⟩ | ⟨t, hst, heff⟩ | ⟨i, hst, heff⟩ | ⟨m, hst, heff⟩ <;>
    subst hst <;> (try subst heff) <;> simp [on_exception]

/-- C8 witness: the successful markdown transition on `notes.md` sets the
subtitle to the path and resets the scroll position. -/
theorem subtitle_and_scroll_per_mode_witness :
    stateAfterMarkdown.subtitle = .path "notes.md" ∧
    Effect.scrollHome ∈ ([.styleUpdate, .scrollHome] : List Effect) :=
  (subtitle_and_scroll_per_mode envPlainOk "notes.md" initState stateAfterMarkdown
      [.styleUpdate, .scrollHome] rfl).2.1 "x - ☐ y" rfl

/-- C10: a `text/plain` dotfile whose basename starts with a dot and has no
further dot splits into an empty first segment plus the rest, so it is
treated as having an extension (CodeView, or MarkdownView for `.md`), and
the confirmatory buffer sniff is not performed on this route. -/
theorem dotfile_treated_as_extension (env : Env) (path e : String) (s st : PaneState)
    (effs : List Effect)
    (hm : env.pathSniff = .ok "text/plain")
    (hdot : pysplit (os_path_basename path) '.' = ["", e])
    (hrun : on_directory_tree_file_selected env path s = .ok (st, effs)) :
    select "text/plain" (os_path_basename path) =
      (if e = "md" then RenderMode.MarkdownView else RenderMode.CodeView) ∧
    ∀ n, Effect.bufferSniffCall n ∉ effs := by
  constructor
  · unfold select
    rw [if_neg (by decide), if_pos (by decide)]
    unfold select_text
    rw [if_pos rfl]
    unfold select_text_plain
    rw [if_pos rfl]
    simp only [hdot]
    unfold select_t_plain_ext
    rfl
  · unfold on_directory_tree_file_selected at hrun
    rw [hm] at hrun
    dsimp only [] at hrun
    rw [if_neg (by decide), if_pos (by decide)] at hrun
    unfold on_text at hrun
    rw [if_pos rfl] at hrun
    unfold on_text_plain at hrun
    rw [if_pos rfl] at hrun
    simp only [hdot] at hrun
    unfold on_t_plain_ext on_markdown_view on_code_view at hrun
    repeat'
      first
        | split at hrun
        | dsimp only [] at hrun
    all_goals
      injection hrun with h
    all_goals
      injection h with h1 h2
    all_goals
      subst h2
    all_goals
      intro n
      simp

/-- C10 witness: selecting `.bashrc` sniffed as `text/plain` dispatches on
extension `bashrc` (CodeView) and makes no buffer-sniff call. -/
theorem dotfile_treated_as_extension_witness :
    select "text/plain" (os_path_basename ".bashrc") =
      (if "bashrc" = "md" then RenderMode.MarkdownView else RenderMode.CodeView) ∧
    ∀ n, Effect.bufferSniffCall n ∉ ([.styleUpdate, .scrollHome] : List Effect) :=
  dotfile_treated_as_extension envPlainOk ".bashrc" "bashrc" initState
    { content := .code ".bashrc", viewboxCodeView := true, viewboxImageView := false,
      previewImage := false, subtitle := .path ".bashrc" }
    [.styleUpdate, .scrollHome] rfl (by decide) rfl

end FileBrowser
